import Mathlib

/-!
Shallow embedding of the sensespace-miniapp-sdk client library
(src/core.ts, src/utils.ts, and the React hook file exporting
useUserProfile), together with theorems settling the spec claims.

Modelling conventions:
- JavaScript nullable string fields (absent / null / undefined) are
  modelled as `Option String`, with `none` for absent or null.
- JavaScript truthiness on such a field (`x || y`) treats `none` and
  `some ""` as falsy; `jsOrS` and `jsTruthyMsg` model this.
- The asynchronous transport (global `fetch` plus `response.json()`)
  is modelled by a `Transport` value: how many milliseconds the call
  would take to settle, and how it settles (an HTTP response with a
  JSON-parsable body, a thrown `Error` instance, or a thrown
  non-`Error` value). A promise that never rejects is modelled by a
  total Lean function.
- The `setTimeout`/`AbortController` timeout machinery of
  `HTTPClient.makeRequest` is modelled by comparing the timer duration
  with the transport settle time: the timer fires first exactly when
  the duration is strictly smaller, in which case the in-flight call
  is aborted and rejects with an `Error` named "AbortError" whose
  host-supplied message is `Transport.abortMsg` (the source ignores
  that message). A `RequestTrace` records the issued URL, the headers,
  the timer duration, whether an abort was issued, and whether the
  timer was cleared.
-/

/-- JavaScript `x || d` for a nullable string `x`: `none` and the empty
string are falsy and fall back to `d`. -/
def jsOrS : Option String → String → String
  | some s, d => if s = "" then d else s
  | none, d => d

/-- JavaScript `x || null` for a nullable string `x`: a truthy string is
kept, `none` and the empty string become `none` (null). -/
def jsTruthyMsg : Option String → Option String
  | some s => if s = "" then none else some s
  | none => none

/-- UserProfile (src/types.ts). Only `id` is relevant to the claims; the
remaining optional fields and the open-ended string-keyed bag do not
influence any control flow in the source. -/
structure UserProfile where
  id : String
deriving DecidableEq, Repr

/-- APIResponse (src/types.ts): `{ success: boolean; data?: T; error?:
string; message?: string }`, specialised to `UserProfile` data. -/
structure APIResponse where
  success : Bool
  message : Option String := none
  data : Option UserProfile := none
  error : Option String := none
deriving DecidableEq, Repr

/-- The fields of a JSON-parsed response body that
`HTTPClient.makeRequest` reads: `success`, `message`, `data`. -/
structure ResponseBody where
  success : Bool
  message : Option String := none
  data : Option UserProfile := none
deriving DecidableEq, Repr

/-- How the underlying `fetch` (plus `response.json()`) settles, when it
is not aborted by the timeout timer: an HTTP response whose body parses
as JSON, a thrown `Error` instance carrying `name` and `message`
(network failure, or a `SyntaxError` from a malformed JSON body), or a
thrown non-`Error` value. -/
inductive FetchOutcome where
  | response (status : Nat) (statusText : String) (body : ResponseBody)
  | throwError (name : String) (message : String)
  | throwNonError
deriving DecidableEq, Repr

/-- A deterministic model of one behaviour of the network transport:
the time in milliseconds until the call would settle, the outcome when
not aborted, and the host-supplied message of the `AbortError` produced
when the call is aborted. -/
structure Transport where
  settleMillis : Nat
  outcome : FetchOutcome
  abortMsg : String := "The operation was aborted"
deriving DecidableEq, Repr

/-- RequestOptions (src/types.ts): `{ timeout?: number; headers?:
Record<string, string> }`. The header record is modelled as an
association list with distinct keys. -/
structure RequestOptions where
  timeout : Option Nat := none
  headers : List (String × String) := []
deriving DecidableEq, Repr

/-- Observable record of the single network request issued by
`HTTPClient.makeRequest`: the URL passed to `fetch`, the outgoing
headers, the duration of the cancellation timer, whether the timer
fired and aborted the in-flight call, and whether `clearTimeout` was
called on settlement. -/
structure RequestTrace where
  url : String
  headers : List (String × String)
  timerMillis : Nat
  abortIssued : Bool
  timerCleared : Bool
deriving DecidableEq, Repr

/-- JavaScript object property assignment `obj[k] = v` on a string
record modelled as an association list: the existing entry for `k` is
updated in place, otherwise `(k, v)` is appended. -/
def setKey : List (String × String) → String → String → List (String × String)
  | [], k, v => [(k, v)]
  | p :: rest, k, v => if p.1 = k then (k, v) :: rest else p :: setKey rest k v

/-- JavaScript object-literal spread `{ ...base-literal, ...extra }`:
the entries of `extra` are assigned over `base` in order, later keys
overriding earlier ones. -/
def objAssign (base extra : List (String × String)) : List (String × String) :=
  extra.foldl (fun acc p => setKey acc p.1 p.2) base

/-- Property read `obj[k]` on a string record modelled as an
association list: the first entry with key `k`, if any. -/
def lookupHeader : List (String × String) → String → Option String
  | [], _ => none
  | p :: rest, k => if p.1 = k then some p.2 else lookupHeader rest k

/-- src/core.ts line 3: `const DEFAULT_ENDPOINT = 'api.sensespace.xyz'`. -/
def DEFAULT_ENDPOINT : String := "api.sensespace.xyz"

/-- src/core.ts line 4: `const DEFAULT_TIMEOUT = 10000` (10 seconds). -/
def DEFAULT_TIMEOUT : Nat := 10000

/-- The two default headers of `HTTPClient.makeRequest`:
`Authorization: Bearer <token>` and `Content-Type: application/json`. -/
def defaultHeaders (token : String) : List (String × String) :=
  [("Authorization", "Bearer " ++ token), ("Content-Type", "application/json")]

/-- `Response.ok` of the fetch API: status in the inclusive range
200..299. -/
def statusOk (status : Nat) : Bool := 200 ≤ status && status < 300

/-- HTTPClient (src/core.ts lines 9-88): private fields `baseURL`,
`token`, `defaultTimeout`. -/
structure HTTPClient where
  baseURL : String
  token : String
  defaultTimeout : Nat
deriving DecidableEq, Repr

/-- The HTTPClient constructor (src/core.ts lines 14-18): stores the
token, sets `baseURL` to `https://` followed by the endpoint, and
stores the default timeout. -/
def HTTPClient.make (token endpoint : String) (timeout : Nat) : HTTPClient :=
  { baseURL := "https://" ++ endpoint, token := token, defaultTimeout := timeout }

/-- The outcome that actually reaches the `try`/`catch` of
`makeRequest`: if the cancellation timer (duration `timeoutMs`) fires
strictly before the transport settles, `controller.abort()` makes the
in-flight call reject with an `Error` named "AbortError"; otherwise the
transport settles on its own. -/
def effectiveOutcome (timeoutMs : Nat) (t : Transport) : FetchOutcome :=
  if timeoutMs < t.settleMillis then .throwError "AbortError" t.abortMsg else t.outcome

/-- HTTPClient.makeRequest (src/core.ts lines 20-83), evaluated against
one transport behaviour. Returns the resolved `APIResponse` (the
promise never rejects: this function is total) paired with the trace of
the issued request. `timerCleared` is set on each settlement path,
mirroring the `clearTimeout` calls on line 40 (after `fetch` resolves)
and line 60 (in the `catch` block). -/
def HTTPClient.makeRequest (c : HTTPClient) (url : String) (options : RequestOptions)
    (t : Transport) : APIResponse × RequestTrace :=
  let timeoutMs := options.timeout.getD c.defaultTimeout
  let trace0 : RequestTrace :=
    { url := c.baseURL ++ url,
      headers := objAssign (defaultHeaders c.token) options.headers,
      timerMillis := timeoutMs,
      abortIssued := timeoutMs < t.settleMillis,
      timerCleared := false }
  match effectiveOutcome timeoutMs t with
  | .response status statusText body =>
    if statusOk status then
      ({ success := body.success, message := body.message, data := body.data, error := none },
       { trace0 with timerCleared := true })
    else
      ({ success := false,
         message := jsTruthyMsg body.message,
         data := none,
         error := some (jsOrS body.message
           ("HTTP " ++ toString status ++ ": " ++ statusText)) },
       { trace0 with timerCleared := true })
  | .throwError name message =>
    if name = "AbortError" then
      ({ success := false, message := none, data := none, error := some "Request timeout" },
       { trace0 with timerCleared := true })
    else
      ({ success := false, message := none, data := none, error := some message },
       { trace0 with timerCleared := true })
  | .throwNonError =>
    ({ success := false, message := none, data := none, error := some "Unknown error occurred" },
     { trace0 with timerCleared := true })

/-- HTTPClient.getUserProfile (src/core.ts lines 85-87): a GET to the
fixed path template `/api/miniapps-user/profile/<userId>`. -/
def HTTPClient.getUserProfile (c : HTTPClient) (userId : String) (options : RequestOptions)
    (t : Transport) : APIResponse × RequestTrace :=
  c.makeRequest ("/api/miniapps-user/profile/" ++ userId) options t

/-- SenseSpaceConfig (src/types.ts): `{ token: string; endpoint?:
string }`. A missing token is modelled as the empty string, which the
constructor check `!config.token` treats identically. -/
structure SenseSpaceConfig where
  token : String
  endpoint : Option String := none
deriving DecidableEq, Repr

/-- SenseSpaceSDK (src/core.ts lines 93-121): holds the HTTP client. -/
structure SenseSpaceSDK where
  httpClient : HTTPClient
deriving DecidableEq, Repr

/-- The SenseSpaceSDK constructor (src/core.ts lines 96-105): throws
(modelled as `Except.error`) when the token is falsy, otherwise builds
an HTTPClient from the token and `config.endpoint || DEFAULT_ENDPOINT`,
leaving the timeout at its default. -/
def SenseSpaceSDK.make (config : SenseSpaceConfig) : Except String SenseSpaceSDK :=
  if config.token = "" then
    .error "Token is required to initialize SenseSpace SDK"
  else
    .ok { httpClient := HTTPClient.make config.token
            (jsOrS config.endpoint DEFAULT_ENDPOINT) DEFAULT_TIMEOUT }

/-- SenseSpaceSDK.getUserProfile (src/core.ts lines 110-120): a falsy
`userId` short-circuits to a failure result with no network call (the
trace is `none`); otherwise delegates to the HTTP client (exactly one
network call, whose trace is returned). -/
def SenseSpaceSDK.getUserProfile (sdk : SenseSpaceSDK) (userId : String)
    (options : RequestOptions) (t : Transport) : APIResponse × Option RequestTrace :=
  if userId = "" then
    ({ success := false, message := none, data := none, error := some "User ID is required" },
     none)
  else
    let r := sdk.httpClient.getUserProfile userId options t
    (r.1, some r.2)

/-- createSenseSpaceClient (src/core.ts lines 126-128). -/
def createSenseSpaceClient (config : SenseSpaceConfig) : Except String SenseSpaceSDK :=
  SenseSpaceSDK.make config

/-- A JavaScript value as discriminated by `formatErrorMessage`
(src/utils.ts lines 70-84): an `Error` instance (carrying its
`message`), a primitive string, a non-null object of typeof "object"
with a `message` property (carrying the result of the `String(...)`
coercion of that property), such an object without a `message`
property, `null`, or any other value (numbers, booleans, undefined,
functions, symbols). -/
inductive JSValue where
  | errorInst (message : String)
  | str (s : String)
  | objWithMessage (messageStr : String)
  | objNoMessage
  | jsNull
  | otherPrim
deriving DecidableEq, Repr

/-- formatErrorMessage (src/utils.ts lines 70-84), branch for branch:
`instanceof Error` first, then `typeof === "string"`, then a truthy
object with a `message` property (`null` is typeof "object" but falsy,
so it falls through), else the fixed fallback string. Total: never
throws. -/
def formatErrorMessage : JSValue → String
  | .errorInst m => m
  | .str s => s
  | .objWithMessage m => m
  | .objNoMessage => "An unknown error occurred"
  | .jsNull => "An unknown error occurred"
  | .otherPrim => "An unknown error occurred"

/-- FetchState: the `data`/`loading`/`error` state of one
`useUserProfile` subscription. -/
structure FetchState where
  data : Option UserProfile := none
  loading : Bool := false
  error : Option String := none
deriving DecidableEq, Repr

/-- How one awaited `client.getUserProfile` call inside the hook
settles: it resolves with an `APIResponse`, or it throws some
JavaScript value. -/
inductive HookFetchResult where
  | resolved (r : APIResponse)
  | threw (e : JSValue)
deriving DecidableEq, Repr

namespace UseUserProfile

/-- One run of the hook-internal `fetchUserProfile` callback
(useUserProfile, hook source file lines 19-42), evaluated against the
given settlement of the awaited call. Returns the state after the run
settles, paired with `true` when a fetch was actually performed and
`false` when the guard `!enabled || !userId || !client` returned early
(leaving the state untouched). `clientSupplied` models whether a client
value was passed (a client object is truthy). -/
def fetchUserProfile (clientSupplied : Bool) (userId : String) (enabled : Bool)
    (st : FetchState) (res : HookFetchResult) : FetchState × Bool :=
  if !enabled || userId == "" || !clientSupplied then
    (st, false)
  else
    match res with
    | .resolved r =>
      if r.success && r.data.isSome then
        ({ data := r.data, loading := false, error := none }, true)
      else
        ({ data := none, loading := false,
           error := some (jsOrS r.error "Failed to fetch user profile") }, true)
    | .threw e =>
      ({ data := none, loading := false, error := some (formatErrorMessage e) }, true)

/-- The `refetch` callback (hook source file lines 44-46): it awaits
`fetchUserProfile()` and nothing else. -/
def refetch (clientSupplied : Bool) (userId : String) (enabled : Bool)
    (st : FetchState) (res : HookFetchResult) : FetchState × Bool :=
  fetchUserProfile clientSupplied userId enabled st res

end UseUserProfile

/-! ### Helper lemmas -/

theorem lookupHeader_setKey_self (obj : List (String × String)) (k v : String) :
    lookupHeader (setKey obj k v) k = some v := by
  induction obj with
  | nil => simp [setKey, lookupHeader]
  | cons p rest ih =>
    by_cases h : p.1 = k
    · simp [setKey, h, lookupHeader]
    · simp [setKey, h, lookupHeader, ih]

theorem lookupHeader_setKey_other (obj : List (String × String)) (k v k' : String)
    (h : k' ≠ k) : lookupHeader (setKey obj k v) k' = lookupHeader obj k' := by
  induction obj with
  | nil => simp [setKey, lookupHeader, Ne.symm h]
  | cons p rest ih =>
    by_cases hp : p.1 = k
    · subst hp
      simp [setKey, lookupHeader, Ne.symm h]
    · simp [setKey, hp, lookupHeader, ih]

theorem lookupHeader_eq_none_of_not_mem_keys (l : List (String × String)) (k : String)
    (h : k ∉ l.map Prod.fst) : lookupHeader l k = none := by
  induction l with
  | nil => rfl
  | cons p rest ih =>
    simp only [List.map_cons, List.mem_cons, not_or] at h
    have hp : ¬ p.1 = k := fun hh => h.1 hh.symm
    simp [lookupHeader, hp, ih h.2]

theorem lookupHeader_objAssign_of_none (base extra : List (String × String)) (k : String)
    (h : lookupHeader extra k = none) :
    lookupHeader (objAssign base extra) k = lookupHeader base k := by
  induction extra generalizing base with
  | nil => rfl
  | cons p rest ih =>
    simp only [lookupHeader] at h
    by_cases hp : p.1 = k
    · simp [hp] at h
    · simp only [hp, if_false] at h
      have : objAssign base (p :: rest) = objAssign (setKey base p.1 p.2) rest := rfl
      rw [this, ih _ h, lookupHeader_setKey_other _ _ _ _ (fun hk => hp hk.symm)]

theorem lookupHeader_objAssign_of_some (base extra : List (String × String)) (k v : String)
    (hnd : (extra.map Prod.fst).Nodup) (h : lookupHeader extra k = some v) :
    lookupHeader (objAssign base extra) k = some v := by
  induction extra generalizing base with
  | nil => simp [lookupHeader] at h
  | cons p rest ih =>
    have hstep : objAssign base (p :: rest) = objAssign (setKey base p.1 p.2) rest := rfl
    simp only [List.map_cons, List.nodup_cons] at hnd
    simp only [lookupHeader] at h
    by_cases hp : p.1 = k
    · simp only [hp, if_true] at h
      have hv : p.2 = v := Option.some.inj h
      have hrest : lookupHeader rest k = none := by
        apply lookupHeader_eq_none_of_not_mem_keys
        rw [← hp]
        exact hnd.1
      rw [hstep, lookupHeader_objAssign_of_none _ _ _ hrest, hp, hv,
        lookupHeader_setKey_self]
    · simp only [hp, if_false] at h
      rw [hstep, ih _ hnd.2 h]

theorem makeRequest_snd (c : HTTPClient) (url : String) (options : RequestOptions)
    (t : Transport) :
    (c.makeRequest url options t).2 =
      { url := c.baseURL ++ url,
        headers := objAssign (defaultHeaders c.token) options.headers,
        timerMillis := options.timeout.getD c.defaultTimeout,
        abortIssued := decide (options.timeout.getD c.defaultTimeout < t.settleMillis),
        timerCleared := true } := by
  simp only [HTTPClient.makeRequest]
  rcases effectiveOutcome (options.timeout.getD c.defaultTimeout) t with
    ⟨status, statusText, body⟩ | ⟨name, message⟩ | _
  · by_cases h : statusOk status <;> simp [h]
  · by_cases h : name = "AbortError" <;> simp [h]
  · rfl

theorem makeRequest_timeout (c : HTTPClient) (url : String) (options : RequestOptions)
    (t : Transport) (h : options.timeout.getD c.defaultTimeout < t.settleMillis) :
    (c.makeRequest url options t).1 =
      { success := false, message := none, data := none,
        error := some "Request timeout" } := by
  simp [HTTPClient.makeRequest, effectiveOutcome, h]

theorem makeRequest_response (c : HTTPClient) (url : String) (options : RequestOptions)
    (t : Transport) (status : Nat) (statusText : String) (body : ResponseBody)
    (h : effectiveOutcome (options.timeout.getD c.defaultTimeout) t
      = .response status statusText body) :
    (c.makeRequest url options t).1 =
      if statusOk status then
        { success := body.success, message := body.message, data := body.data, error := none }
      else
        { success := false, message := jsTruthyMsg body.message, data := none,
          error := some (jsOrS body.message
            ("HTTP " ++ toString status ++ ": " ++ statusText)) } := by
  simp only [HTTPClient.makeRequest, h]
  by_cases hok : statusOk status <;> simp [hok]

theorem makeRequest_throwError (c : HTTPClient) (url : String) (options : RequestOptions)
    (t : Transport) (name message : String)
    (h : effectiveOutcome (options.timeout.getD c.defaultTimeout) t
      = .throwError name message) :
    (c.makeRequest url options t).1 =
      { success := false, message := none, data := none,
        error := some (if name = "AbortError" then "Request timeout" else message) } := by
  simp only [HTTPClient.makeRequest, h]
  by_cases hn : name = "AbortError" <;> simp [hn]

theorem makeRequest_throwNonError (c : HTTPClient) (url : String) (options : RequestOptions)
    (t : Transport)
    (h : effectiveOutcome (options.timeout.getD c.defaultTimeout) t = .throwNonError) :
    (c.makeRequest url options t).1 =
      { success := false, message := none, data := none,
        error := some "Unknown error occurred" } := by
  simp only [HTTPClient.makeRequest, h]

/-! ### Claim theorems -/

/-- Claim C5: for every options value and every transport behaviour,
calling `getUserProfile` with an empty (or, equivalently under the
falsy check of the source, absent) `userId` resolves to
`{ok: false, error: "User ID is required"}` and issues zero network
calls (the request trace is `none`). -/
theorem empty_userId_no_call (sdk : SenseSpaceSDK) (options : RequestOptions)
    (t : Transport) :
    sdk.getUserProfile "" options t
      = ({ success := false, message := none, data := none,
           error := some "User ID is required" }, none) := by
  simp [SenseSpaceSDK.getUserProfile]

/-- Claim C6: client construction (`createSenseSpaceClient`) throws
(modelled as `Except.error`) if and only if the configured token is
missing or empty (both modelled as the empty string, which the falsy
check of the source treats identically); with a non-empty token it
returns a client without throwing. -/
theorem create_client_token_check (config : SenseSpaceConfig) :
    ((∃ e, createSenseSpaceClient config = .error e) ↔ config.token = "") ∧
    (config.token ≠ "" → ∃ sdk, createSenseSpaceClient config = .ok sdk) := by
  unfold createSenseSpaceClient SenseSpaceSDK.make
  by_cases h : config.token = "" <;> simp [h]

/-- Witness for C6 at the concrete config `{token := "tok"}`. -/
theorem create_client_token_check_witness :
    ∃ sdk, createSenseSpaceClient { token := "tok", endpoint := none } = .ok sdk :=
  (create_client_token_check { token := "tok", endpoint := none }).2 (by decide)

/-- Claim C7: for every configured endpoint string, every non-empty
`userId`, every token, default timeout, options and transport
behaviour, the URL issued by the request executor is exactly
`https://<endpoint>/api/miniapps-user/profile/<userId>`: the fixed path
template appended to the base endpoint, with the scheme forced to
HTTPS by the constructor regardless of the configured endpoint. -/
theorem request_url_shape (token endpoint : String) (timeout : Nat) (userId : String)
    (options : RequestOptions) (t : Transport) (_hid : userId ≠ "") :
    ((HTTPClient.make token endpoint timeout).getUserProfile userId options t).2.url
      = "https://" ++ endpoint ++ "/api/miniapps-user/profile/" ++ userId := by
  rw [HTTPClient.getUserProfile, makeRequest_snd]
  simp [HTTPClient.make, String.append_assoc]

/-- Witness for C7 at a concrete endpoint, userId and transport. -/
theorem request_url_shape_witness :
    ((HTTPClient.make "tok" "example.org" 5000).getUserProfile "u1"
        { timeout := none, headers := [] }
        { settleMillis := 0, outcome := .throwNonError,
          abortMsg := "The operation was aborted" }).2.url
      = "https://" ++ "example.org" ++ "/api/miniapps-user/profile/" ++ "u1" :=
  request_url_shape "tok" "example.org" 5000 "u1"
    { timeout := none, headers := [] }
    { settleMillis := 0, outcome := .throwNonError,
      abortMsg := "The operation was aborted" }
    (by decide)

/-- Claim C8: for every call to the request executor, the outgoing
headers are the two defaults `Authorization: Bearer <token>` and
`Content-Type: application/json` overlaid (not removed) with the
caller-supplied `options.headers` record (spec name: `extraHeaders`):
a key absent from the caller record keeps its default value, a
caller-supplied key overrides by key, and in particular a caller entry
for `Authorization` replaces the default bearer header. The record has
distinct keys by construction in JavaScript (`hnd`). -/
theorem headers_overlay (c : HTTPClient) (url : String) (options : RequestOptions)
    (t : Transport) (k v : String)
    (hnd : (options.headers.map Prod.fst).Nodup) :
    (lookupHeader options.headers k = none →
      lookupHeader (c.makeRequest url options t).2.headers k
        = lookupHeader (defaultHeaders c.token) k) ∧
    (lookupHeader options.headers k = some v →
      lookupHeader (c.makeRequest url options t).2.headers k = some v) ∧
    (lookupHeader options.headers "Authorization" = some v →
      lookupHeader (c.makeRequest url options t).2.headers "Authorization" = some v ∧
      lookupHeader (defaultHeaders c.token) "Authorization"
        = some ("Bearer " ++ c.token)) := by
  rw [makeRequest_snd]
  refine ⟨fun hnone => ?_, fun hsome => ?_, fun hauth => ⟨?_, ?_⟩⟩
  · exact lookupHeader_objAssign_of_none _ _ _ hnone
  · exact lookupHeader_objAssign_of_some _ _ _ _ hnd hsome
  · exact lookupHeader_objAssign_of_some _ _ _ _ hnd hauth
  · simp [defaultHeaders, lookupHeader]

/-- Witness for C8: a caller-supplied `Authorization` header overrides
the default bearer header on a concrete request. -/
theorem headers_overlay_witness :
    lookupHeader ((HTTPClient.make "tok" "example.org" 5000).makeRequest "/p"
        { timeout := none, headers := [("Authorization", "custom")] }
        { settleMillis := 0, outcome := .throwNonError,
          abortMsg := "The operation was aborted" }).2.headers "Authorization"
      = some "custom" :=
  ((headers_overlay (HTTPClient.make "tok" "example.org" 5000) "/p"
      { timeout := none, headers := [("Authorization", "custom")] }
      { settleMillis := 0, outcome := .throwNonError,
        abortMsg := "The operation was aborted" }
      "Authorization" "custom" (by decide)).2.1) (by decide)

/-- Claim C10: `formatErrorMessage` is total (never throws) and returns,
for each class of JavaScript input value: the `message` property of an
`Error` instance, a string itself, the string coercion of the `message`
property of any other non-null typeof-object value that has one, and
the fixed string "An unknown error occurred" for every other value
(objects without a `message` property, `null`, and all remaining
values). The last conjunct records that this function determines the
error state of the `useUserProfile` adapter when its fetch throws a
value. -/
theorem formatErrorMessage_spec (m s om : String) (st : FetchState) (e : JSValue) :
    formatErrorMessage (.errorInst m) = m ∧
    formatErrorMessage (.str s) = s ∧
    formatErrorMessage (.objWithMessage om) = om ∧
    formatErrorMessage .objNoMessage = "An unknown error occurred" ∧
    formatErrorMessage .jsNull = "An unknown error occurred" ∧
    formatErrorMessage .otherPrim = "An unknown error occurred" ∧
    (UseUserProfile.fetchUserProfile true "u" true st (.threw e)).1.error
      = some (formatErrorMessage e) := by
  refine ⟨rfl, rfl, rfl, rfl, rfl, rfl, ?_⟩
  simp [UseUserProfile.fetchUserProfile]

/-- Claim C2: for every `getUserProfile` call with a non-empty `userId`
on a client built by the constructor, a cancellation timer is started
at `options.timeout` (spec name: `timeoutMillis`), defaulting to 10000
ms when the option is absent; if the timer fires before the network
call settles, the in-flight call is aborted and the call resolves to
`{ok: false, error: "Request timeout"}`; and on every settlement path
the timer is cleared. -/
theorem timeout_behavior (config : SenseSpaceConfig) (sdk : SenseSpaceSDK)
    (userId : String) (options : RequestOptions) (t : Transport)
    (hmk : SenseSpaceSDK.make config = .ok sdk) (hid : userId ≠ "") :
    ∃ tr : RequestTrace,
      (sdk.getUserProfile userId options t).2 = some tr ∧
      tr.timerMillis = options.timeout.getD 10000 ∧
      tr.timerCleared = true ∧
      (options.timeout.getD 10000 < t.settleMillis →
        tr.abortIssued = true ∧
        (sdk.getUserProfile userId options t).1
          = { success := false, message := none, data := none,
              error := some "Request timeout" }) := by
  have hdt : sdk.httpClient.defaultTimeout = 10000 := by
    unfold SenseSpaceSDK.make at hmk
    split at hmk
    · simp at hmk
    · injection hmk with h2
      subst h2
      rfl
  refine ⟨(sdk.httpClient.getUserProfile userId options t).2, ?_, ?_, ?_, ?_⟩
  · simp [SenseSpaceSDK.getUserProfile, hid]
  · rw [HTTPClient.getUserProfile, makeRequest_snd, hdt]
  · rw [HTTPClient.getUserProfile, makeRequest_snd]
  · intro habort
    constructor
    · rw [HTTPClient.getUserProfile, makeRequest_snd, hdt]
      simpa using habort
    · have h1 : (sdk.getUserProfile userId options t).1
          = (sdk.httpClient.getUserProfile userId options t).1 := by
        simp [SenseSpaceSDK.getUserProfile, hid]
      rw [h1, HTTPClient.getUserProfile]
      exact makeRequest_timeout sdk.httpClient _ options t (hdt ▸ habort)

/-- Witness for C2: with no timeout option, the timer runs at 10000 ms
and a transport that takes 20000 ms is aborted into the timeout
result. -/
theorem timeout_behavior_witness :
    ∃ tr : RequestTrace,
      ((⟨⟨"https://api.sensespace.xyz", "tok", 10000⟩⟩ : SenseSpaceSDK).getUserProfile "u1"
          { timeout := none, headers := [] }
          { settleMillis := 20000, outcome := .throwNonError,
            abortMsg := "The operation was aborted" }).2 = some tr ∧
      tr.timerMillis = 10000 ∧
      tr.timerCleared = true ∧
      ((10000 : Nat) < 20000 →
        tr.abortIssued = true ∧
        ((⟨⟨"https://api.sensespace.xyz", "tok", 10000⟩⟩ : SenseSpaceSDK).getUserProfile "u1"
            { timeout := none, headers := [] }
            { settleMillis := 20000, outcome := .throwNonError,
              abortMsg := "The operation was aborted" }).1
          = { success := false, message := none, data := none,
              error := some "Request timeout" }) :=
  timeout_behavior { token := "tok", endpoint := none }
    ⟨⟨"https://api.sensespace.xyz", "tok", 10000⟩⟩ "u1"
    { timeout := none, headers := [] }
    { settleMillis := 20000, outcome := .throwNonError,
      abortMsg := "The operation was aborted" }
    rfl (by decide)

/-- Claim C3: for every HTTP response received by the request executor
with a JSON-parsable body: on a non-2xx status the result has
`success := false`, its `error` is the body message when that message
is present (a truthy, i.e. non-empty, string — the source uses
`responseData.message || fallback`) and otherwise the synthesized
`"HTTP <status>: <statusText>"` string, and the body message is carried
through into the result `message` field (nulled when not truthy); on a
2xx status the result `success`/`message`/`data` are exactly the body
fields passed through verbatim — so a 2xx body with `success: false`
yields a non-ok result. -/
theorem response_normalization (c : HTTPClient) (url : String) (options : RequestOptions)
    (t : Transport) (status : Nat) (statusText : String) (body : ResponseBody)
    (hresp : effectiveOutcome (options.timeout.getD c.defaultTimeout) t
      = .response status statusText body) :
    (statusOk status = false →
      (c.makeRequest url options t).1.success = false ∧
      (∀ m : String, body.message = some m → m ≠ "" →
        (c.makeRequest url options t).1.error = some m ∧
        (c.makeRequest url options t).1.message = some m) ∧
      ((body.message = none ∨ body.message = some "") →
        (c.makeRequest url options t).1.error
          = some ("HTTP " ++ toString status ++ ": " ++ statusText) ∧
        (c.makeRequest url options t).1.message = none)) ∧
    (statusOk status = true →
      (c.makeRequest url options t).1.success = body.success ∧
      (c.makeRequest url options t).1.message = body.message ∧
      (c.makeRequest url options t).1.data = body.data) := by
  rw [makeRequest_response c url options t status statusText body hresp]
  constructor
  · intro hnok
    rw [if_neg (by simp [hnok])]
    refine ⟨rfl, ?_, ?_⟩
    · intro m hm hne
      simp [jsOrS, jsTruthyMsg, hm, hne]
    · rintro (hnone | hempty)
      · simp [jsOrS, jsTruthyMsg, hnone]
      · simp [jsOrS, jsTruthyMsg, hempty]
  · intro hok
    rw [if_pos (by simp [hok])]
    exact ⟨rfl, rfl, rfl⟩

/-- Witness for C3: HTTP 404 with body `{message: "not found"}` yields
`{ok: false, error: "not found"}`. -/
theorem response_normalization_witness :
    ((HTTPClient.make "tok" "example.org" 5000).makeRequest "/p"
        { timeout := none, headers := [] }
        { settleMillis := 0,
          outcome := .response 404 "Not Found"
            { success := false, message := some "not found", data := none },
          abortMsg := "The operation was aborted" }).1.error = some "not found" :=
  (((response_normalization (HTTPClient.make "tok" "example.org" 5000) "/p"
      { timeout := none, headers := [] }
      { settleMillis := 0,
        outcome := .response 404 "Not Found"
          { success := false, message := some "not found", data := none },
        abortMsg := "The operation was aborted" }
      404 "Not Found"
      { success := false, message := some "not found", data := none }
      (by decide)).1 (by decide)).2.1 "not found" rfl (by decide)).1

/-- Claim C4 (amended): for every userId, options and transport
behaviour, `getUserProfile` resolves (the model function is total: the
promise never rejects). An empty userId resolves to the
"User ID is required" failure; a thrown `Error` resolves to
`{ok: false}` with the error message of the underlying `Error` —
except that an `Error` named "AbortError" (the timeout cancellation)
resolves to the fixed string "Request timeout" instead of that message;
and a thrown non-`Error` value resolves to `{ok: false, error:
"Unknown error occurred"}`. -/
theorem resolve_on_failure (sdk : SenseSpaceSDK) (userId : String)
    (options : RequestOptions) (t : Transport) (name message : String) :
    (userId = "" →
      sdk.getUserProfile userId options t
        = ({ success := false, message := none, data := none,
             error := some "User ID is required" }, none)) ∧
    (userId ≠ "" →
      effectiveOutcome (options.timeout.getD sdk.httpClient.defaultTimeout) t
        = .throwError name message →
      (sdk.getUserProfile userId options t).1
        = { success := false, message := none, data := none,
            error := some (if name = "AbortError" then "Request timeout" else message) }) ∧
    (userId ≠ "" →
      effectiveOutcome (options.timeout.getD sdk.httpClient.defaultTimeout) t
        = .throwNonError →
      (sdk.getUserProfile userId options t).1
        = { success := false, message := none, data := none,
            error := some "Unknown error occurred" }) := by
  refine ⟨fun hempty => ?_, fun hid hthrow => ?_, fun hid hthrow => ?_⟩
  · subst hempty
    simp [SenseSpaceSDK.getUserProfile]
  · have h1 : (sdk.getUserProfile userId options t).1
        = (sdk.httpClient.getUserProfile userId options t).1 := by
      simp [SenseSpaceSDK.getUserProfile, hid]
    rw [h1, HTTPClient.getUserProfile]
    exact makeRequest_throwError sdk.httpClient _ options t name message hthrow
  · have h1 : (sdk.getUserProfile userId options t).1
        = (sdk.httpClient.getUserProfile userId options t).1 := by
      simp [SenseSpaceSDK.getUserProfile, hid]
    rw [h1, HTTPClient.getUserProfile]
    exact makeRequest_throwNonError sdk.httpClient _ options t hthrow

/-- Witness for C4 (amended): a transport rejecting with a `TypeError`
carrying "Failed to fetch" resolves to that message. -/
theorem resolve_on_failure_witness :
    ((⟨⟨"https://api.sensespace.xyz", "tok", 10000⟩⟩ : SenseSpaceSDK).getUserProfile "u1"
        { timeout := none, headers := [] }
        { settleMillis := 0, outcome := .throwError "TypeError" "Failed to fetch",
          abortMsg := "The operation was aborted" }).1
      = { success := false, message := none, data := none,
          error := some "Failed to fetch" } := by
  have h := (resolve_on_failure ⟨⟨"https://api.sensespace.xyz", "tok", 10000⟩⟩ "u1"
      { timeout := none, headers := [] }
      { settleMillis := 0, outcome := .throwError "TypeError" "Failed to fetch",
        abortMsg := "The operation was aborted" } "TypeError" "Failed to fetch").2.1
      (by decide) (by decide)
  simpa using h

/-- Counterexample to C4 as stated: on a timeout, the underlying thrown
`Error` (the abort exception) has an available message, namely the
host string "The operation was aborted", yet the call resolves to the
fixed string "Request timeout" rather than that message. -/
theorem resolve_on_failure_counterexample :
    effectiveOutcome 10000
        { settleMillis := 20000, outcome := .throwNonError,
          abortMsg := "The operation was aborted" }
      = .throwError "AbortError" "The operation was aborted" ∧
    ((⟨⟨"https://api.sensespace.xyz", "tok", 10000⟩⟩ : SenseSpaceSDK).getUserProfile "u1"
        { timeout := none, headers := [] }
        { settleMillis := 20000, outcome := .throwNonError,
          abortMsg := "The operation was aborted" }).1.error
      = some "Request timeout" ∧
    ("Request timeout" : String) ≠ "The operation was aborted" := by
  refine ⟨by decide, by decide, by decide⟩

/-- Claim C1 (amended): `refetch()` simply re-runs the gated fetch
callback: when `enabled` is true, `userId` is non-empty and a client is
supplied, a manual refetch performs exactly one fresh fetch; but when
`enabled` is false the guard returns early, so a manual refetch
performs no fetch and leaves the state untouched — refetch does not
bypass the `enabled` gating. -/
theorem refetch_gated_by_enabled (userId : String) (enabled : Bool) (st : FetchState)
    (res : HookFetchResult) (hid : userId ≠ "") :
    (enabled = true → (UseUserProfile.refetch true userId enabled st res).2 = true) ∧
    (enabled = false → UseUserProfile.refetch true userId enabled st res = (st, false)) := by
  have hbeq : (userId == "") = false := by simp [hid]
  constructor
  · intro he
    subst he
    simp only [UseUserProfile.refetch, UseUserProfile.fetchUserProfile, hbeq]
    simp only [Bool.not_true, Bool.false_or, Bool.or_self, Bool.or_false, if_false,
      Bool.false_eq_true]
    cases res with
    | resolved r =>
      by_cases hs : (r.success && r.data.isSome) = true <;> simp [hs]
    | threw e => rfl
  · intro he
    subst he
    simp [UseUserProfile.refetch, UseUserProfile.fetchUserProfile]

/-- Witness for C1 (amended): with `enabled := true` a manual refetch
performs one fetch. -/
theorem refetch_gated_by_enabled_witness :
    (UseUserProfile.refetch true "u1" true
        { data := none, loading := false, error := none }
        (.resolved { success := true, message := none, data := some { id := "u1" },
                     error := none })).2 = true :=
  (refetch_gated_by_enabled "u1" true
    { data := none, loading := false, error := none }
    (.resolved { success := true, message := none, data := some { id := "u1" },
                 error := none })
    (by decide)).1 rfl

/-- Counterexample to C1 as stated: with `enabled := false`, a
non-empty `userId` and a client supplied, a manual `refetch()` performs
zero fetches (the claim asserts exactly one). -/
theorem refetch_gated_by_enabled_counterexample :
    ¬ ((UseUserProfile.refetch true "u1" false
          { data := none, loading := false, error := none }
          (.resolved { success := true, message := none, data := some { id := "u1" },
                       error := none })).2 = true) := by
  decide

/-- Claim C9: when a triggered fetch (client supplied, `userId`
non-empty, `enabled` true) resolves with `ok: false` or throws any
value, the subscription state transitions to `{data: null, loading:
false, error: <string>}` and nothing propagates to the caller (the
model function is total). In the `ok: false` case the error string is
the result error field when present (truthy, i.e. a non-empty string —
the source uses `response.error || fallback`) and the fallback
"Failed to fetch user profile" otherwise, as the last two conjuncts
spell out for `jsOrS`; in the throwing case it is the formatted
exception message. -/
theorem hook_error_state (userId : String) (st : FetchState) (r : APIResponse) (e : JSValue)
    (hid : userId ≠ "") :
    (r.success = false →
      UseUserProfile.fetchUserProfile true userId true st (.resolved r)
        = ({ data := none, loading := false,
             error := some (jsOrS r.error "Failed to fetch user profile") }, true)) ∧
    (UseUserProfile.fetchUserProfile true userId true st (.threw e)
      = ({ data := none, loading := false, error := some (formatErrorMessage e) }, true)) ∧
    (∀ m : String, r.error = some m → m ≠ "" →
      jsOrS r.error "Failed to fetch user profile" = m) ∧
    ((r.error = none ∨ r.error = some "") →
      jsOrS r.error "Failed to fetch user profile" = "Failed to fetch user profile") := by
  have hbeq : (userId == "") = false := by simp [hid]
  refine ⟨fun hs => ?_, ?_, fun m hm hne => ?_, fun hcase => ?_⟩
  · simp [UseUserProfile.fetchUserProfile, hbeq, hs]
  · simp [UseUserProfile.fetchUserProfile, hbeq]
  · simp [jsOrS, hm, hne]
  · rcases hcase with hnone | hempty
    · simp [jsOrS, hnone]
    · simp [jsOrS, hempty]

/-- Witness for C9: a fetch resolving `{ok: false, error: "boom"}`
produces the error state with message "boom". -/
theorem hook_error_state_witness :
    UseUserProfile.fetchUserProfile true "u1" true
        { data := none, loading := false, error := none }
        (.resolved { success := false, message := none, data := none,
                     error := some "boom" })
      = ({ data := none, loading := false, error := some "boom" }, true) := by
  have h := (hook_error_state "u1"
      { data := none, loading := false, error := none }
      { success := false, message := none, data := none, error := some "boom" }
      (.str "bad") (by decide)).1 rfl
  simpa [jsOrS] using h
